import Mathlib

/-!
Verification development for the `pdf-to-csv-app` repository (single source
file `app.py`).  The Python code is shallowly embedded: pure string
manipulation becomes Lean functions over `String` / `List Char`, the
regular-expression engine of the `re` module is embedded as a small
backtracking matcher (ordered-choice semantics, identical to CPython's
engine on the pattern at hand), Python `float` amounts are modelled as exact
rationals (every concrete amount appearing in the claims — 150.00, 2500.00,
0.00, 100.00 — is exactly representable in binary64, so equalities and sign
facts transfer), and fallible operations return `Option` / `Except`.
-/

namespace BankPdf

/-! ## Character classes of the `re` module

Python's `\d` and `\s` with `str` patterns also accept non-ASCII digits and
spaces; the inputs relevant here are ASCII, and the model uses the ASCII
classes. -/

/-- Class `\d` of the regex module (ASCII model). -/
def reDigit (c : Char) : Bool := c.isDigit

/-- Class `\s` of the regex module: space, tab, newline, vertical tab, form
feed, carriage return (ASCII model). -/
def reSpace (c : Char) : Bool :=
  c = ' ' || c = '\t' || c = '\n' || c = '\x0b' || c = '\x0c' || c = '\r'

/-- Metacharacter `.` (no DOTALL flag): any character except newline. -/
def reAnyChar (c : Char) : Bool := c ≠ '\n'

/-- Class `[\d\s,.]` from the pattern (third, credit and sixth groups). -/
def clsNumSpCommaDot (c : Char) : Bool :=
  reDigit c || reSpace c || c = ',' || c = '.'

/-- Class `[\d\s,.-]` from the pattern (fourth group, the debit amount,
which "can have a '-' sign"). -/
def clsNumSpCommaDotDash (c : Char) : Bool :=
  reDigit c || reSpace c || c = ',' || c = '.' || c = '-'

/-! ## String helpers modelling Python `str` methods -/

/-- Python `str.lower()` (ASCII model; the code only compares against the
ASCII marker strings and the token `"absa"`). -/
def pyLower (s : String) : String := String.mk (s.toList.map Char.toLower)

/-- Python `str.strip()` with no argument: remove leading and trailing
whitespace (ASCII model). -/
def pyStripL (l : List Char) : List Char :=
  ((l.dropWhile reSpace).reverse.dropWhile reSpace).reverse

/-- String version of `pyStripL`. -/
def pyStripS (s : String) : String := String.mk (pyStripL s.toList)

/-- Python `needle in hay` on strings: substring containment. -/
def listContainsSub (needle : List Char) : List Char → Bool
  | [] => needle.isEmpty
  | c :: t => needle.isPrefixOf (c :: t) || listContainsSub needle t

/-- Python `s.replace(old, "")` for a one-character `old`: remove every
occurrence of that character. -/
def removeAll (c : Char) (s : String) : String :=
  String.mk (s.toList.filter (fun d => d ≠ c))

/-- Helper for `re.sub(r'\s+', ' ', line)`: replace every maximal run of
whitespace with a single space.  The flag records whether the previous
character was whitespace. -/
def collapseWsAux : Bool → List Char → List Char
  | _, [] => []
  | prevSp, c :: rest =>
    if reSpace c then
      if prevSp then collapseWsAux true rest
      else ' ' :: collapseWsAux true rest
    else c :: collapseWsAux false rest

/-- Line 55 of `app.py`: `line = re.sub(r'\s+', ' ', line).strip()`. -/
def collapseLine (line : String) : String :=
  String.mk (pyStripL (collapseWsAux false line.toList))

/-- Numeric value of a list of decimal digit characters. -/
def natOfDigits (l : List Char) : Nat :=
  l.foldl (fun a c => a * 10 + (c.toNat - 48)) 0

/-- Python `float()` restricted to the amount strings the code builds: after
`replace(" ", "")`, `replace(",", "")` (and `replace("-", "")` on the debit),
the argument consists of decimal digits and `'.'` only, and `float` accepts
it exactly when it has at least one digit and at most one dot (`"5."` and
`".5"` are accepted, `"."` and `""` raise `ValueError`).  The result is the
exact rational value; Python rounds it to binary64, which is exact for every
concrete amount this development evaluates. -/
def floatOfDigitsDots (s : String) : Option ℚ :=
  let l := s.toList
  if l.all (fun c => c.isDigit || c = '.') && l.any Char.isDigit &&
      (l.filter (fun c => c = '.')).length ≤ 1 then
    let intPart := l.takeWhile (fun c => c ≠ '.')
    let fracPart := (l.dropWhile (fun c => c ≠ '.')).drop 1
    -- the value intPart + fracPart / 10^len, written as a single fraction
    some (mkRat (natOfDigits intPart * 10 ^ fracPart.length + natOfDigits fracPart)
      (10 ^ fracPart.length))
  else none

/-! ## A backtracking regex engine

CPython's `re` engine is a backtracking matcher: alternatives are tried in a
fixed priority order (greedy repetition prefers longer matches first, lazy
repetition shorter ones), and the first complete match in that order wins.
The engine below implements exactly that ordered-choice semantics in
continuation-passing style.  `fuel` bounds the recursion depth; every
repetition body in the transaction pattern consumes at least one character
(or is capped at one iteration), so depth is linear in the input length and
the generous bound `reFuel` below can never be reached. -/

/-- Regex abstract syntax: single-character classes, sequencing, capturing
groups and counted repetition (`lo` to `hi` iterations, `none` meaning
unbounded; `greedy` selects longest-first vs shortest-first order). -/
inductive RE where
  | cls (p : Char → Bool)
  | seq2 (a b : RE)
  | grp (idx : Nat) (r : RE)
  | rep (lo : Nat) (hi : Option Nat) (greedy : Bool) (r : RE)

/-- Captures: group index paired with the captured characters, most recent
first (Python's `group(n)` returns the last completed match of group `n`). -/
abbrev Caps := List (Nat × List Char)

/-- Backtracking matcher.  `reMat fuel r input caps k` tries to match `r` at
the head of `input` and calls the continuation `k` with the remaining input
and updated captures; alternatives are explored in CPython's priority
order, and the first success of the whole continuation chain is returned. -/
def reMat : Nat → RE → List Char → Caps →
    (List Char → Caps → Option (List Char × Caps)) → Option (List Char × Caps)
  | 0, _, _, _, _ => none
  | _ + 1, .cls p, input, caps, k =>
    match input with
    | [] => none
    | c :: rest => if p c then k rest caps else none
  | f + 1, .seq2 a b, input, caps, k =>
    reMat f a input caps (fun rem caps1 => reMat f b rem caps1 k)
  | f + 1, .grp n r, input, caps, k =>
    reMat f r input caps (fun rem caps1 =>
      k rem ((n, input.take (input.length - rem.length)) :: caps1))
  | f + 1, .rep lo hi greedy r, input, caps, k =>
    match hi with
    | some 0 => k input caps
    | _ =>
      let hi1 : Option Nat := match hi with | some n => some (n - 1) | none => none
      if lo > 0 then
        reMat f r input caps (fun rem caps1 =>
          reMat f (.rep (lo - 1) hi1 greedy r) rem caps1 k)
      else if greedy then
        match reMat f r input caps (fun rem caps1 =>
            reMat f (.rep 0 hi1 greedy r) rem caps1 k) with
        | some res => some res
        | none => k input caps
      else
        match k input caps with
        | some res => some res
        | none =>
          reMat f r input caps (fun rem caps1 =>
            reMat f (.rep 0 hi1 greedy r) rem caps1 k)

/-- Fuel bound: recursion depth is at most linear in the input length for
the transaction pattern (see `reMat`). -/
def reFuel (n : Nat) : Nat := 4 * n + 128

/-- Python `pattern.search(s)`: try a match at every start position from the
left; the leftmost position admitting a match wins, and within it the
backtracking order of `reMat` decides the groups. -/
def reSearch (r : RE) (s : List Char) : Option Caps :=
  match reMat (reFuel s.length) r s [] (fun rem caps => some (rem, caps)) with
  | some (_, caps) => some caps
  | none =>
    match s with
    | [] => none
    | _ :: t => reSearch r t

/-- Match-object group access: `group(n)` as `Option String` (`none` when
the group did not participate in the match). -/
def capGroup (caps : Caps) (n : Nat) : Option String :=
  (caps.find? (fun pr => pr.1 = n)).map (fun pr => String.mk pr.2)

/-- Right-nested sequence of a list of regexes (empty list is the empty
pattern, written as a zero-iteration repetition). -/
def seqList : List RE → RE
  | [] => .rep 0 (some 0) true (.cls (fun _ => false))
  | [r] => r
  | r :: rs => .seq2 r (seqList rs)

/-- The transaction pattern of `parse_absa_pdf` (lines 38–45 of `app.py`),
group for group:

* group 1: `(\d{1,2}/\d{1,2}/\d{4})` — the date;
* `\s+`;
* group 2: `(.+?)` — the description (lazy), followed by `\s+`;
* group 3: `([\d\s,.]+\s+)?` — optional charge or extra text;
* group 4: `([\d\s,.-]+)` — debit or credit amount, followed by `\s*`;
* group 5 (named `credit`): `(?P<credit>[\d\s,.]*)?`;
* group 6: `([\d\s,.]+\s*)?` — optional charge. -/
def transactionPattern : RE :=
  seqList [
    .grp 1 (seqList [
      .rep 1 (some 2) true (.cls reDigit), .cls (fun c => c = '/'),
      .rep 1 (some 2) true (.cls reDigit), .cls (fun c => c = '/'),
      .rep 4 (some 4) true (.cls reDigit)]),
    .rep 1 none true (.cls reSpace),
    .grp 2 (.rep 1 none false (.cls reAnyChar)),
    .rep 1 none true (.cls reSpace),
    .rep 0 (some 1) true (.grp 3 (seqList [
      .rep 1 none true (.cls clsNumSpCommaDot), .rep 1 none true (.cls reSpace)])),
    .grp 4 (.rep 1 none true (.cls clsNumSpCommaDotDash)),
    .rep 0 none true (.cls reSpace),
    .rep 0 (some 1) true (.grp 5 (.rep 0 none true (.cls clsNumSpCommaDot))),
    .rep 0 (some 1) true (.grp 6 (seqList [
      .rep 1 none true (.cls clsNumSpCommaDot), .rep 0 none true (.cls reSpace)]))]

/-! ## Date conversion

Line 79 of `app.py`:
`pd.to_datetime(date_str, format="%d/%m/%Y").strftime("%Y-%m-%d")`. -/

/-- Leap year in the proleptic Gregorian calendar used by pandas. -/
def isLeapYear (y : Nat) : Bool := (y % 4 = 0 && y % 100 ≠ 0) || y % 400 = 0

/-- Number of days in a month. -/
def daysInMonth (y m : Nat) : Nat :=
  if m = 2 then (if isLeapYear y then 29 else 28)
  else if m = 4 || m = 6 || m = 9 || m = 11 then 30
  else 31

/-- Valid calendar date (day and month in range for the proleptic Gregorian
calendar).  This is both the calendar check performed by the datetime parser
and the spec's §3 notion of a "valid calendar date". -/
def validCalendarDate (y m d : Nat) : Bool :=
  1 ≤ m && m ≤ 12 && 1 ≤ d && d ≤ daysInMonth y m

/-- Numeric key for lexicographic date comparison. -/
def dateKey (y m d : Nat) : Nat := y * 10000 + m * 100 + d

/-- The nanosecond-resolution `pandas.Timestamp` (int64) can only represent
instants between 1677-09-21 00:12:43 and 2262-04-11 23:47:16 (documented
`Timestamp.min` / `Timestamp.max`); the midnight timestamps produced by
`pd.to_datetime` therefore exist exactly for dates from 1677-09-22 through
2262-04-11, and everything else raises `OutOfBoundsDatetime`, a subclass of
`ValueError`. -/
def inTimestampRange (y m d : Nat) : Bool :=
  16770922 ≤ dateKey y m d && dateKey y m d ≤ 22620411

/-- Field `%d` / `%m`: one or two digit day or month, taken greedily (two
digits whenever the second character is a digit; strptime-style parsing
does not backtrack). -/
def takeF2 : List Char → Option (Nat × List Char)
  | [] => none
  | [a] => if a.isDigit then some (a.toNat - 48, []) else none
  | a :: b :: rest =>
    if a.isDigit then
      if b.isDigit then some ((a.toNat - 48) * 10 + (b.toNat - 48), rest)
      else some (a.toNat - 48, b :: rest)
    else none

/-- Field `%Y`: exactly four digits.  (pandas accepts shorter years as well,
but any year below 1000 is outside the `Timestamp` range and raises, so the
observable outcome — the line is dropped — is identical; the regex only ever
supplies four-digit years anyway.) -/
def takeY4 : List Char → Option (Nat × List Char)
  | a :: b :: c :: d :: rest =>
    if a.isDigit && b.isDigit && c.isDigit && d.isDigit then
      some (natOfDigits [a, b, c, d], rest)
    else none
  | _ => none

/-- Parse `D[D]/M[M]/YYYY`, requiring the whole string to be consumed
(`pd.to_datetime` with an explicit format is exact). -/
def parseDMY (l : List Char) : Option (Nat × Nat × Nat) :=
  match takeF2 l with
  | none => none
  | some (d, rest) =>
    match rest with
    | '/' :: rest2 =>
      match takeF2 rest2 with
      | none => none
      | some (m, rest3) =>
        match rest3 with
        | '/' :: rest4 =>
          match takeY4 rest4 with
          | some (y, []) => some (d, m, y)
          | _ => none
        | _ => none
    | _ => none

/-- Zero-padded two-digit rendering (strftime `%m`, `%d`). -/
def pad2 (n : Nat) : String := if n < 10 then "0" ++ Nat.repr n else Nat.repr n

/-- Zero-padded four-digit rendering (strftime `%Y`). -/
def pad4 (n : Nat) : String :=
  if n < 10 then "000" ++ Nat.repr n
  else if n < 100 then "00" ++ Nat.repr n
  else if n < 1000 then "0" ++ Nat.repr n
  else Nat.repr n

/-- Strftime output `%Y-%m-%d`. -/
def isoFormat (y m d : Nat) : String := pad4 y ++ "-" ++ pad2 m ++ "-" ++ pad2 d

/-- The date conversion of line 79:
`pd.to_datetime(s, format="%d/%m/%Y").strftime("%Y-%m-%d")`, with `none`
standing for a raised `ValueError` (format mismatch, invalid calendar date,
or out-of-range timestamp — `OutOfBoundsDatetime` is a `ValueError`). -/
def toDatetimeFmt (s : String) : Option String :=
  match parseDMY s.toList with
  | some (d, m, y) =>
    if validCalendarDate y m d && inTimestampRange y m d then some (isoFormat y m d)
    else none
  | none => none

/-! ## The rule-based ABSA parser (`parse_absa_pdf`, lines 20–88) -/

/-- A parsed transaction, the dict built at lines 78–82 of `app.py`:
`{"date": ..., "description": ..., "amount": ...}`.  It has exactly these
three fields; no source-document field exists anywhere in the program. -/
structure TransactionRecord where
  date : String
  description : String
  amount : ℚ
  deriving DecidableEq, Repr

/-- Exception kinds the try-block of the per-line conversion can raise; both
are caught by `except (ValueError, IndexError)` at line 83. -/
inductive PyErr where
  | valueError
  | indexError
  deriving DecidableEq, Repr

/-- Python truthiness-and-blank test used at lines 69 and 71:
`x and x.strip() != ""` for an optional string `x` (`None` and `""` are
falsy). -/
def strTruthyNonBlank : Option String → Bool
  | none => false
  | some s => s ≠ "" && pyStripS s ≠ ""

/-- Cleanup of the credit string (line 70):
`credit_str.replace(" ", "").replace(",", "")`. -/
def cleanCredit (s : String) : String := removeAll ',' (removeAll ' ' s)

/-- Cleanup of the debit string (line 73):
`debit_str.replace(" ", "").replace(",", "").replace("-", "")`. -/
def cleanDebit (s : String) : String := removeAll '-' (removeAll ',' (removeAll ' ' s))

/-- The try-block at lines 59–82, operating on the match's groups:
amount-sign resolution first (credit group if truthy and non-blank,
otherwise debit negated via `-abs(...)`, otherwise `continue`), then the
record construction with its date conversion.  `Except.error` models a
raised exception, `Except.ok none` the `continue` at line 75.  Groups 1, 2
and 4 are mandatory and always participate in a successful match; `getD ""`
is only a typing device for the impossible `none` case. -/
def convertLineE (caps : Caps) : Except PyErr (Option TransactionRecord) :=
  let dateStr := pyStripS ((capGroup caps 1).getD "")
  let description := pyStripS ((capGroup caps 2).getD "")
  let debitStr := capGroup caps 4
  let creditStr := capGroup caps 5
  let amountRes : Except PyErr (Option ℚ) :=
    if strTruthyNonBlank creditStr then
      match floatOfDigitsDots (cleanCredit (creditStr.getD "")) with
      | some v => .ok (some v)
      | none => .error .valueError
    else if strTruthyNonBlank debitStr then
      match floatOfDigitsDots (cleanDebit (debitStr.getD "")) with
      | some v => .ok (some (-|v|))
      | none => .error .valueError
    else .ok none
  match amountRes with
  | .error e => .error e
  | .ok none => .ok none
  | .ok (some amount) =>
    match toDatetimeFmt dateStr with
    | some iso => .ok (some ⟨iso, description, amount⟩)
    | none => .error .valueError

/-- The header/metadata filter at line 51: case-insensitive substring test
against the fixed exclusion markers, applied to the raw line. -/
def hasMarker (line : String) : Bool :=
  listContainsSub ("statement no".toList) (pyLower line).toList ||
  listContainsSub ("transaction description".toList) (pyLower line).toList ||
  listContainsSub ("page".toList) (pyLower line).toList

/-- The body of the per-line loop (lines 50–85): skip marker lines, collapse
whitespace, search the pattern, convert; a caught exception or a `continue`
contributes no record. -/
def parseLine (line : String) : Option TransactionRecord :=
  if hasMarker line then none
  else
    match reSearch transactionPattern (collapseLine line).toList with
    | none => none
    | some caps =>
      match convertLineE caps with
      | .ok r => r
      | .error _ => none

/-- Helper for `str.split("\n")`: accumulate the current piece (reversed)
and emit it at each newline and at the end. -/
def splitNlAux : List Char → List Char → List String
  | acc, [] => [String.mk acc.reverse]
  | acc, c :: t =>
    if c = '\n' then String.mk acc.reverse :: splitNlAux [] t
    else splitNlAux (c :: acc) t

/-- Python `pdf_text.split("\n")` (line 48): split on every newline, keeping
empty pieces. -/
def pySplitNl (s : String) : List String := splitNlAux [] s.toList

/-- One iteration of the per-line loop: `transactions.append(...)` when the
line produced a record (line 78), nothing otherwise. -/
def appendRecord (transactions : List TransactionRecord) (line : String) :
    List TransactionRecord :=
  match parseLine line with
  | some t => transactions ++ [t]
  | none => transactions

/-- `parse_absa_pdf` (lines 20–88): split the text on newlines and run the
per-line loop, appending each produced record. -/
def parse_absa_pdf (pdf_text : String) : List TransactionRecord :=
  (pySplitNl pdf_text).foldl appendRecord []

/-! ## Python JSON values and `json.loads`

`process_with_ai` decodes twice: the HTTP response body (via
`response.json()`, which is `json.loads` on the body) and then the inner
payload text.  The model below implements the `json` module's grammar,
including Python's `NaN`/`Infinity` extensions (kept as `jext` literals).
Escape sequences denoting lone surrogates — representable in Python strings
but not as Unicode scalar values — degrade to NUL via `Char.ofNat`; no claim
evaluates such input. -/

/-- A decoded Python JSON value. -/
inductive JVal where
  | jnull
  | jbool (b : Bool)
  | jnum (q : ℚ)
  | jext (lit : String)
  | jstr (s : String)
  | jarr (elems : List JVal)
  | jobj (fields : List (String × JVal))
  deriving Repr

/-- JSON whitespace between tokens. -/
def skipWsJ (l : List Char) : List Char :=
  l.dropWhile (fun c => c = ' ' || c = '\t' || c = '\n' || c = '\r')

/-- Value of a hexadecimal digit. -/
def hexDigitVal (c : Char) : Option Nat :=
  if '0' ≤ c && c ≤ '9' then some (c.toNat - 48)
  else if 'a' ≤ c && c ≤ 'f' then some (c.toNat - 87)
  else if 'A' ≤ c && c ≤ 'F' then some (c.toNat - 55)
  else none

/-- Four hexadecimal digits of a `\uXXXX` escape. -/
def hex4 : List Char → Option (Nat × List Char)
  | a :: b :: c :: d :: rest =>
    match hexDigitVal a, hexDigitVal b, hexDigitVal c, hexDigitVal d with
    | some x, some y, some z, some w => some (((x * 16 + y) * 16 + z) * 16 + w, rest)
    | _, _, _, _ => none
  | _ => none

/-- Body of a JSON string literal, after the opening quote: returns the
decoded characters and the input after the closing quote.  Unescaped
control characters are rejected (strict mode), the standard escapes are
decoded, and `\uXXXX` surrogate pairs are combined. -/
def parseJStrBody : Nat → List Char → Option (List Char × List Char)
  | 0, _ => none
  | f + 1, l =>
    match l with
    | [] => none
    | '"' :: rest => some ([], rest)
    | '\\' :: 'u' :: rest =>
      match hex4 rest with
      | none => none
      | some (n, rest2) =>
        if 0xD800 ≤ n && n ≤ 0xDBFF then
          match rest2 with
          | '\\' :: 'u' :: rest3 =>
            match hex4 rest3 with
            | some (n2, rest4) =>
              if 0xDC00 ≤ n2 && n2 ≤ 0xDFFF then
                (parseJStrBody f rest4).map (fun pr =>
                  (Char.ofNat (0x10000 + (n - 0xD800) * 0x400 + (n2 - 0xDC00)) :: pr.1, pr.2))
              else
                (parseJStrBody f rest4).map (fun pr =>
                  (Char.ofNat n :: Char.ofNat n2 :: pr.1, pr.2))
            | none => (parseJStrBody f rest2).map (fun pr => (Char.ofNat n :: pr.1, pr.2))
          | _ => (parseJStrBody f rest2).map (fun pr => (Char.ofNat n :: pr.1, pr.2))
        else (parseJStrBody f rest2).map (fun pr => (Char.ofNat n :: pr.1, pr.2))
    | '\\' :: e :: rest =>
      let dec : Option Char :=
        if e = '"' then some '"'
        else if e = '\\' then some '\\'
        else if e = '/' then some '/'
        else if e = 'b' then some '\x08'
        else if e = 'f' then some '\x0c'
        else if e = 'n' then some '\n'
        else if e = 'r' then some '\r'
        else if e = 't' then some '\t'
        else none
      match dec with
      | some c => (parseJStrBody f rest).map (fun pr => (c :: pr.1, pr.2))
      | none => none
    | c :: rest =>
      if c.toNat < 32 then none
      else (parseJStrBody f rest).map (fun pr => (c :: pr.1, pr.2))

/-- A JSON number token (with Python's leading-`-` `Infinity` handled by the
caller): `int [frac] [exp]`, leading zeros rejected. -/
def parseJNum (l : List Char) : Option (ℚ × List Char) :=
  match l with
  | [] => none
  | c :: _ =>
    if !c.isDigit then none
    else
      let intDigits := l.takeWhile Char.isDigit
      let l2 := l.dropWhile Char.isDigit
      if 1 < intDigits.length && c = '0' then none
      else
        -- numerator and power-of-ten denominator of `int [frac]`
        let step2 : Option (Nat × Nat × List Char) :=
          match l2 with
          | '.' :: t =>
            let fd := t.takeWhile Char.isDigit
            if fd.isEmpty then none
            else some (natOfDigits intDigits * 10 ^ fd.length + natOfDigits fd,
              10 ^ fd.length, t.dropWhile Char.isDigit)
          | _ => some (natOfDigits intDigits, 1, l2)
        match step2 with
        | none => none
        | some (num, den, l3) =>
          match l3 with
          | 'e' :: rest3 | 'E' :: rest3 =>
            let signExp : Bool × List Char :=
              match rest3 with
              | '+' :: t => (false, t)
              | '-' :: t => (true, t)
              | _ => (false, rest3)
            let ed := signExp.2.takeWhile Char.isDigit
            if ed.isEmpty then none
            else
              let ev := natOfDigits ed
              some (if signExp.1 then mkRat num (den * 10 ^ ev)
                else mkRat (num * 10 ^ ev) den,
                signExp.2.dropWhile Char.isDigit)
          | _ => some (mkRat num den, l3)

/-- Python `dict` insertion while decoding an object: an existing key keeps
its position but takes the new value, a new key is appended. -/
def upsertField (fields : List (String × JVal)) (k : String) (v : JVal) :
    List (String × JVal) :=
  if fields.any (fun kv => kv.1 = k) then
    fields.map (fun kv => if kv.1 = k then (k, v) else kv)
  else fields ++ [(k, v)]

mutual

/-- One JSON value at the head of the input (whitespace already skipped). -/
def parseJVal : Nat → List Char → Option (JVal × List Char)
  | 0, _ => none
  | f + 1, l =>
    match l with
    | 'n' :: 'u' :: 'l' :: 'l' :: rest => some (.jnull, rest)
    | 't' :: 'r' :: 'u' :: 'e' :: rest => some (.jbool true, rest)
    | 'f' :: 'a' :: 'l' :: 's' :: 'e' :: rest => some (.jbool false, rest)
    | 'N' :: 'a' :: 'N' :: rest => some (.jext "NaN", rest)
    | 'I' :: 'n' :: 'f' :: 'i' :: 'n' :: 'i' :: 't' :: 'y' :: rest =>
      some (.jext "Infinity", rest)
    | '-' :: 'I' :: 'n' :: 'f' :: 'i' :: 'n' :: 'i' :: 't' :: 'y' :: rest =>
      some (.jext "-Infinity", rest)
    | '"' :: rest => (parseJStrBody (f + 1) rest).map (fun pr => (.jstr (String.mk pr.1), pr.2))
    | '[' :: rest =>
      match skipWsJ rest with
      | ']' :: r2 => some (.jarr [], r2)
      | r1 => parseJItems f r1 []
    | '\x7b' :: rest =>
      match skipWsJ rest with
      | '\x7d' :: r2 => some (.jobj [], r2)
      | r1 => parseJFields f r1 []
    | '-' :: rest => (parseJNum rest).map (fun pr => (.jnum (-pr.1), pr.2))
    | _ => (parseJNum l).map (fun pr => (.jnum pr.1, pr.2))

/-- Comma-separated array items up to the closing bracket. -/
def parseJItems : Nat → List Char → List JVal → Option (JVal × List Char)
  | 0, _, _ => none
  | f + 1, l, acc =>
    match parseJVal f l with
    | none => none
    | some (v, rest) =>
      match skipWsJ rest with
      | ',' :: r2 => parseJItems f (skipWsJ r2) (acc ++ [v])
      | ']' :: r2 => some (.jarr (acc ++ [v]), r2)
      | _ => none

/-- Comma-separated `"key": value` members up to the closing brace. -/
def parseJFields : Nat → List Char → List (String × JVal) → Option (JVal × List Char)
  | 0, _, _ => none
  | f + 1, l, acc =>
    match l with
    | '"' :: rest =>
      match parseJStrBody (f + 1) rest with
      | none => none
      | some (key, r1) =>
        match skipWsJ r1 with
        | ':' :: r2 =>
          match parseJVal f (skipWsJ r2) with
          | none => none
          | some (v, r3) =>
            let acc1 := upsertField acc (String.mk key) v
            match skipWsJ r3 with
            | ',' :: r4 => parseJFields f (skipWsJ r4) acc1
            | '\x7d' :: r4 => some (.jobj acc1, r4)
            | _ => none
        | _ => none
    | _ => none

end

/-- Python `json.loads`: one JSON value surrounded only by whitespace;
anything else raises `JSONDecodeError` (the `error` case). -/
def jsonLoads (s : String) : Except String JVal :=
  match parseJVal (2 * s.length + 8) (skipWsJ s.toList) with
  | some (v, rest) => if (skipWsJ rest).isEmpty then .ok v else .error "Extra data"
  | none => .error "Expecting value"

/-! ## The model-backed extractor (`process_with_ai`, lines 91–154) -/

/-- Python truthiness of a decoded JSON value (`NaN`/`Infinity` floats are
truthy). -/
def pyTruthy : JVal → Bool
  | .jnull => false
  | .jbool b => b
  | .jnum q => q ≠ 0
  | .jext _ => true
  | .jstr s => s ≠ ""
  | .jarr l => !l.isEmpty
  | .jobj kvs => !kvs.isEmpty

/-- Python `len()` on a decoded JSON value; `none` models the `TypeError`
raised for unsized values. -/
def pyLen : JVal → Option Nat
  | .jstr s => some s.length
  | .jarr l => some l.length
  | .jobj kvs => some kvs.length
  | _ => none

/-- Python `x.get(key)` (line 143): only dicts have `.get`; a missing key
yields `None`.  `error` models the `AttributeError` on any other type. -/
def pyGetKey (v : JVal) (key : String) : Except Unit JVal :=
  match v with
  | .jobj fields =>
    match fields.lookup key with
    | some w => .ok w
    | none => .ok .jnull
  | _ => .error ()

/-- Python `x[0]` (line 144): first element of a list, first character of a
string; everything else raises (`KeyError` for dicts with string keys,
`TypeError` otherwise). -/
def pyIndex0 : JVal → Except Unit JVal
  | .jarr (x :: _) => .ok x
  | .jarr [] => .error ()
  | .jstr s =>
    match s.toList with
    | c :: _ => .ok (.jstr (String.mk [c]))
    | [] => .error ()
  | _ => .error ()

/-- Python `x[key]` for a string key (line 144): dict lookup; a missing key
raises `KeyError`, a non-dict raises `TypeError`. -/
def pySubKey (v : JVal) (key : String) : Except Unit JVal :=
  match v with
  | .jobj fields =>
    match fields.lookup key with
    | some w => .ok w
    | none => .error ()
  | _ => .error ()

/-- Lines 143–144 of `app.py`: the guard
`if api_response_json and api_response_json.get('candidates') and
api_response_json['candidates'][0].get('content'):` followed by
`raw_text = api_response_json['candidates'][0]['content']['parts'][0]['text']`.
`ok none` is the falsy-guard (`else`) branch, `ok (some s)` yields the raw
text, and `error` is any raised exception — all of which the
`except ... Exception` clause at line 152 catches (a non-string `raw_text`
folds in here too, as `json.loads` would raise `TypeError` on it). -/
def navigate (env : JVal) : Except Unit (Option String) :=
  if !pyTruthy env then .ok none
  else
    match pyGetKey env "candidates" with
    | .error e => .error e
    | .ok cand =>
      if !pyTruthy cand then .ok none
      else
        match pyIndex0 cand with
        | .error e => .error e
        | .ok c0 =>
          match pyGetKey c0 "content" with
          | .error e => .error e
          | .ok content =>
            if !pyTruthy content then .ok none
            else
              match pySubKey c0 "content" with
              | .error e => .error e
              | .ok content2 =>
                match pySubKey content2 "parts" with
                | .error e => .error e
                | .ok parts =>
                  match pyIndex0 parts with
                  | .error e => .error e
                  | .ok p0 =>
                    match pySubKey p0 "text" with
                    | .error e => .error e
                    | .ok textVal =>
                      match textVal with
                      | .jstr s => .ok (some s)
                      | _ => .error ()

/-- Outcome of the `requests.post` call at lines 135–140: either the request
itself raises (`RequestException`: connection error, timeout, ...) or a
response arrives.  `statusBad` records whether `raise_for_status()` raises
(a 4xx/5xx status); `body` is the response body text. -/
inductive AiOutcome where
  | netError (msg : String)
  | response (statusBad : Bool) (body : String)

/-- `process_with_ai` (lines 91–154).  The prompt construction and payload
are irrelevant to the returned value; the result is determined by the call
outcome.  Every path of the `try` block that raises is caught by
`except (requests.exceptions.RequestException, json.JSONDecodeError,
Exception)` and returns the empty Python list; the success path returns the
decoded inner payload verbatim (after `len()` succeeds for the
`st.success` message) — with no per-entry validation of any kind. -/
def process_with_ai (outcome : AiOutcome) : JVal :=
  match outcome with
  | .netError _ => .jarr []
  | .response statusBad body =>
    if statusBad then .jarr []
    else
      match jsonLoads body with
      | .error _ => .jarr []
      | .ok env =>
        match navigate env with
        | .error _ => .jarr []
        | .ok none => .jarr []
        | .ok (some rawText) =>
          match jsonLoads rawText with
          | .error _ => .jarr []
          | .ok transactions =>
            match pyLen transactions with
            | some _ => transactions
            | none => .jarr []

/-! ## The main conversion loop (`main`, lines 157–232)

PDF reading and text extraction are external collaborators; the model takes
each uploaded file's name together with its already-extracted text, and —
for files routed to the model-backed path — the outcome of the network
call. -/

/-- The dict literal of lines 78–82 viewed as a Python object, as it sits in
the `all_transactions` list. -/
def recToJson (t : TransactionRecord) : JVal :=
  .jobj [("date", .jstr t.date), ("description", .jstr t.description),
         ("amount", .jnum t.amount)]

/-- The two extraction paths. -/
inductive Route where
  | grammar
  | modelBacked
  deriving DecidableEq, Repr

/-- Line 199: `if "absa" in uploaded_file.name.lower():` — the routing
decision, a pure function of the document identifier. -/
def route (filename : String) : Route :=
  if listContainsSub ("absa".toList) (pyLower filename).toList then .grammar
  else .modelBacked

/-- An uploaded document: its filename, its extracted full text, and the
outcome of the network call (only consulted on the model-backed path). -/
structure UploadedFile where
  name : String
  text : String
  aiResult : AiOutcome

/-- Lines 199–202: the value of `transactions` for one uploaded file. -/
def processFile (f : UploadedFile) : JVal :=
  match route f.name with
  | .grammar => .jarr ((parse_absa_pdf f.text).map recToJson)
  | .modelBacked => process_with_ai f.aiResult

/-- Python iteration over a value, as `list.extend` performs it: a list
yields its elements, a string its characters, a dict its keys; `none`
models the `TypeError` on non-iterables. -/
def pyIterElems : JVal → Option (List JVal)
  | .jarr l => some l
  | .jstr s => some (s.toList.map (fun c => .jstr (String.mk [c])))
  | .jobj kvs => some (kvs.map (fun kv => .jstr kv.1))
  | _ => none

/-- Lines 180–207: the loop building `all_transactions` by
`all_transactions.extend(transactions)`; any exception inside the per-file
`try` (such as a `TypeError` in `extend`) is caught at line 206 and that
file contributes nothing. -/
def processDocs (files : List UploadedFile) : List JVal :=
  files.foldl
    (fun all_transactions f =>
      match pyIterElems (processFile f) with
      | some els => all_transactions ++ els
      | none => all_transactions)
    []

/-- The record aggregator: repeated `extend` is concatenation of the
per-document result lists in submission order. -/
def aggregate (results : List (List α)) : List α :=
  results.foldl (fun acc l => acc ++ l) []

/-- Line 211: `pd.DataFrame(all_transactions,
columns=['date', 'description', 'amount'])` — the fixed column list, used
in every mode. -/
def dfColumns : List String := ["date", "description", "amount"]

/-- CSV field quoting of `DataFrame.to_csv` (QUOTE_MINIMAL): a field
containing the delimiter, a quote or a line break is wrapped in quotes with
inner quotes doubled. -/
def csvQuoteField (s : String) : String :=
  if s.toList.any (fun c => c = ',' || c = '"' || c = '\n' || c = '\r') then
    "\"" ++ String.mk (s.toList.foldr
      (fun c acc => if c = '"' then '"' :: '"' :: acc else c :: acc) []) ++ "\""
  else s

/-- Fractional decimal digits of a rational in `[0, 1)`, up to `fuel`
digits. -/
def fracDigitsAux : Nat → ℚ → List Char
  | 0, _ => []
  | f + 1, q =>
    if q = 0 then []
    else
      let d := (q * 10).floor.toNat
      Char.ofNat (48 + d) :: fracDigitsAux f (q * 10 - (d : ℚ))

/-- Rendering of a float amount in the CSV, `str()`-style with a mandatory
decimal point (`-150.0`).  Binary-floating-point repr artifacts are not
modelled; no claim depends on a rendered amount. -/
def ratToCsv (q : ℚ) : String :=
  let a := |q|
  let ip := a.floor.toNat
  let frac := fracDigitsAux 20 (a - (ip : ℚ))
  (if q < 0 then "-" else "") ++ Nat.repr ip ++ "." ++
    (if frac.isEmpty then "0" else String.mk frac)

/-- Rendering of one cell value (`to_csv` conventions: missing values and
`None` empty, booleans capitalised). -/
def renderScalar : JVal → String
  | .jnull => ""
  | .jbool b => if b then "True" else "False"
  | .jnum q => ratToCsv q
  | .jext lit => lit
  | .jstr s => csvQuoteField s
  | .jarr _ => ""
  | .jobj _ => ""

/-- Cell of a row under a column: dict rows supply the keyed value (a
missing key is `NaN`, rendered empty).  Non-dict rows would make the
`DataFrame` constructor itself raise; they render empty here and are never
produced by the grammar path. -/
def rowCell (row : JVal) (col : String) : String :=
  match row with
  | .jobj fields =>
    match fields.lookup col with
    | some v => renderScalar v
    | none => ""
  | _ => ""

/-- Header line of `df.to_csv(index=False)` — the comma-joined column list,
identical in single- and multi-document runs. -/
def csvHeaderLine : String := String.intercalate "," dfColumns

/-- One CSV data row. -/
def csvRow (row : JVal) : String :=
  String.intercalate "," (dfColumns.map (rowCell row))

/-- Lines 211–214: the exported CSV text — header line, then one line per
aggregated record. -/
def csvOutput (rows : List JVal) : String :=
  csvHeaderLine ++ "\n" ++ String.join (rows.map (fun r => csvRow r ++ "\n"))

/-! ## Shared helper lemmas -/

/-- The record-appending fold of the per-line loop is `filterMap`. -/
theorem foldl_appendRecord_eq_filterMap (lines : List String)
    (acc : List TransactionRecord) :
    lines.foldl appendRecord acc = acc ++ lines.filterMap parseLine := by
  induction lines generalizing acc with
  | nil => simp
  | cons x t ih =>
    simp only [List.foldl_cons, List.filterMap_cons]
    cases h : parseLine x with
    | none => simp [appendRecord, h, ih]
    | some r => simp [appendRecord, h, ih]

/-- The repeated-`extend` fold is concatenation. -/
theorem foldl_append_eq_join (ls : List (List β)) (acc : List β) :
    ls.foldl (fun acc l => acc ++ l) acc = acc ++ ls.flatten := by
  induction ls generalizing acc with
  | nil => simp
  | cons x t ih => simp [ih, List.append_assoc]

/-- The main loop's accumulator equals the concatenation of the per-file
element lists. -/
theorem processDocs_foldl (files : List UploadedFile) (acc : List JVal) :
    files.foldl
      (fun all_transactions f =>
        match pyIterElems (processFile f) with
        | some els => all_transactions ++ els
        | none => all_transactions) acc =
      acc ++ (files.map (fun f => (pyIterElems (processFile f)).getD [])).flatten := by
  induction files generalizing acc with
  | nil => simp
  | cons f t ih =>
    simp only [List.foldl_cons, List.map_cons, List.flatten_cons]
    cases h : pyIterElems (processFile f) with
    | none => simp [h, ih]
    | some els => simp [h, ih, List.append_assoc]

/-! ## Claim theorems -/

/-- C1: the spec claims that a line with a populated credit group yields a
positive amount equal to that number, and in particular that
`"29/04/2021 Acb Credit Yoco  2500.00"` yields amount `2500.00`.  The code
disagrees: the greedy debit group `[\d\s,.-]+` consumes the entire numeric
tail, the credit group captures the empty string (here and on every input),
the debit branch runs, and the record's amount is `-2500.00`, not
`2500.00`. -/
theorem c1_credit_scenario_yields_negative :
    parse_absa_pdf "29/04/2021 Acb Credit Yoco  2500.00" =
      [⟨"2021-04-29", "Acb Credit Yoco", -2500⟩] ∧
    (reSearch transactionPattern
        (collapseLine "29/04/2021 Acb Credit Yoco  2500.00").toList).map
      (fun caps => capGroup caps 5) = some (some "") ∧
    ¬ ((-2500 : ℚ) = 2500) :=
  ⟨rfl, rfl, by decide⟩

/-- C2 counterexample: a line whose debit group carries the number `0.00`
(and whose credit group is empty) produces a record whose amount is `0`,
which is not negative — refuting "the resulting TransactionRecord's amount
is negative" as universally stated. -/
theorem c2_zero_debit_counterexample :
    parse_absa_pdf "1/1/2021 X 0.00" = [⟨"2021-01-01", "X", 0⟩] ∧
    ¬ ((⟨"2021-01-01", "X", 0⟩ : TransactionRecord).amount < 0) :=
  ⟨rfl, by decide⟩

/-- C2 (amended): whenever the credit group is empty or blank and a record
is produced, its amount is the negated absolute value of the parsed debit
number — non-positive always, and strictly negative exactly when the parsed
value is nonzero — with the sign forced regardless of any `'-'` embedded in
the source number (the cleanup removes `'-'` before parsing); the spec's
scenario line `"29/04/2021 Ibank Payment To Settlement  150.00  "` yields
the record `{date: "2021-04-29", description: "Ibank Payment To
Settlement", amount: -150.00}`. -/
theorem c2_debit_amount_nonpositive :
    (∀ (caps : Caps) (r : TransactionRecord),
      strTruthyNonBlank (capGroup caps 5) = false →
      convertLineE caps = Except.ok (some r) →
      ∃ v : ℚ, floatOfDigitsDots (cleanDebit ((capGroup caps 4).getD "")) = some v ∧
        r.amount = -|v| ∧ r.amount ≤ 0 ∧ (v ≠ 0 → r.amount < 0)) ∧
    parse_absa_pdf "29/04/2021 Ibank Payment To Settlement  150.00  " =
      [⟨"2021-04-29", "Ibank Payment To Settlement", -150⟩] := by
  constructor
  · intro caps r h5 hok
    simp only [convertLineE, h5, Bool.false_eq_true, if_false] at hok
    cases h4 : strTruthyNonBlank (capGroup caps 4) with
    | false =>
      rw [h4] at hok
      simp at hok
    | true =>
      rw [h4] at hok
      simp only [if_true] at hok
      cases hf : floatOfDigitsDots (cleanDebit ((capGroup caps 4).getD "")) with
      | none => rw [hf] at hok; simp at hok
      | some v =>
        rw [hf] at hok
        cases hdt : toDatetimeFmt (pyStripS ((capGroup caps 1).getD "")) with
        | none => rw [hdt] at hok; simp at hok
        | some iso =>
          rw [hdt] at hok
          simp only [Except.ok.injEq, Option.some.injEq] at hok
          refine ⟨v, rfl, ?_, ?_, ?_⟩
          · rw [← hok]
          · rw [← hok]
            exact neg_nonpos.mpr (abs_nonneg v)
          · intro hv
            rw [← hok]
            exact neg_lt_zero.mpr (abs_pos.mpr hv)
  · rfl

/-- C2 witness: a concrete capture list whose debit group is
`"1,5 0.00-"` (with an embedded `'-'`) and whose credit group is absent;
the theorem applies and exhibits the parsed value `150` with record amount
`-150`. -/
theorem c2_debit_amount_nonpositive_witness :
    ∃ v : ℚ,
      floatOfDigitsDots (cleanDebit ((capGroup
        [(4, "1,5 0.00-".toList), (2, "Desc".toList), (1, "29/04/2021".toList)] 4).getD "")) =
        some v ∧
      (⟨"2021-04-29", "Desc", -150⟩ : TransactionRecord).amount = -|v| ∧
      (⟨"2021-04-29", "Desc", -150⟩ : TransactionRecord).amount ≤ 0 ∧
      (v ≠ 0 → (⟨"2021-04-29", "Desc", -150⟩ : TransactionRecord).amount < 0) :=
  c2_debit_amount_nonpositive.1
    [(4, "1,5 0.00-".toList), (2, "Desc".toList), (1, "29/04/2021".toList)]
    ⟨"2021-04-29", "Desc", -150⟩ rfl rfl

/-- String concatenation distributes over `toList`. -/
theorem toListAppend (s t : String) : (s ++ t).toList = s.toList ++ t.toList :=
  String.data_append s t

/-- A one- or two-digit field followed by `'/'` parses to its numeric value,
leaving the slash. -/
theorem takeF2_append_slash (l rest : List Char)
    (hl : l.all Char.isDigit = true) (h1 : 1 ≤ l.length) (h2 : l.length ≤ 2) :
    takeF2 (l ++ '/' :: rest) = some (natOfDigits l, '/' :: rest) := by
  match l, h1, h2 with
  | [a], _, _ =>
    simp only [List.all_cons, List.all_nil, Bool.and_true] at hl
    simp [takeF2, hl, natOfDigits]
  | [a, b], _, _ =>
    simp only [List.all_cons, List.all_nil, Bool.and_true, Bool.and_eq_true] at hl
    simp [takeF2, hl.1, hl.2, natOfDigits]

/-- A four-digit year list parses exactly. -/
theorem takeY4_exact (l : List Char) (hl : l.all Char.isDigit = true)
    (h4 : l.length = 4) :
    takeY4 l = some (natOfDigits l, []) := by
  match l, h4 with
  | [a, b, c, d], _ =>
    simp only [List.all_cons, List.all_nil, Bool.and_true, Bool.and_eq_true] at hl
    simp [takeY4, hl.1, hl.2.1, hl.2.2]

/-- C3 counterexample: `01/01/1500` is a valid calendar date in `DD/MM/YYYY`
form, yet the conversion drops it (the date is below the nanosecond
`Timestamp` range and `pd.to_datetime` raises `OutOfBoundsDatetime`, a
`ValueError`), so the line is dropped rather than converted — refuting "for
every valid calendar date string ... produces the equivalent YYYY-MM-DD
string". -/
theorem c3_valid_date_out_of_range_counterexample :
    validCalendarDate 1500 1 1 = true ∧
    toDatetimeFmt "01/01/1500" = none ∧
    parse_absa_pdf "01/01/1500 Old Transfer 100.00" = [] :=
  ⟨rfl, rfl, rfl⟩

/-- C3 (amended): for every valid calendar date in `DD/MM/YYYY` form (1–2
digit day and month, 4-digit year) that lies in the representable
`pandas.Timestamp` range (1677-09-22 through 2262-04-11), the conversion
produces the equivalent zero-padded `YYYY-MM-DD` string; and every line
whose matched date token fails the conversion (invalid calendar date or
out-of-range) is dropped from the output with the `ValueError` caught. -/
theorem c3_date_conversion :
    (∀ ds ms ys : String,
      ds.toList.all Char.isDigit = true → 1 ≤ ds.length → ds.length ≤ 2 →
      ms.toList.all Char.isDigit = true → 1 ≤ ms.length → ms.length ≤ 2 →
      ys.toList.all Char.isDigit = true → ys.length = 4 →
      validCalendarDate (natOfDigits ys.toList) (natOfDigits ms.toList)
        (natOfDigits ds.toList) = true →
      inTimestampRange (natOfDigits ys.toList) (natOfDigits ms.toList)
        (natOfDigits ds.toList) = true →
      toDatetimeFmt (ds ++ "/" ++ ms ++ "/" ++ ys) =
        some (isoFormat (natOfDigits ys.toList) (natOfDigits ms.toList)
          (natOfDigits ds.toList))) ∧
    (∀ line caps,
      reSearch transactionPattern (collapseLine line).toList = some caps →
      toDatetimeFmt (pyStripS ((capGroup caps 1).getD "")) = none →
      parseLine line = none) := by
  constructor
  · intro ds ms ys hdsd hds1 hds2 hmsd hms1 hms2 hysd hys4 hvalid hrange
    have e : ∀ s : String, s.toList = s.data := fun _ => rfl
    simp only [e] at hdsd hmsd hysd hvalid hrange ⊢
    have hsplit : (ds ++ "/" ++ ms ++ "/" ++ ys).data
        = ds.data ++ '/' :: (ms.data ++ '/' :: ys.data) := by
      have hs : "/".data = ['/'] := rfl
      simp [String.data_append, hs, List.append_assoc]
    have h1 := takeF2_append_slash ds.data (ms.data ++ '/' :: ys.data) hdsd hds1 hds2
    have h2 := takeF2_append_slash ms.data ys.data hmsd hms1 hms2
    have h3 := takeY4_exact ys.data hysd hys4
    simp [toDatetimeFmt, parseDMY, e, hsplit, h1, h2, h3, hvalid, hrange]
  · intro line caps hsearch hdate
    cases hm : hasMarker line with
    | true => simp [parseLine, hm]
    | false =>
      simp only [parseLine, hm, Bool.false_eq_true, if_false, hsearch]
      cases h5 : strTruthyNonBlank (capGroup caps 5) with
      | true =>
        simp only [convertLineE, h5, if_true]
        cases hf : floatOfDigitsDots (cleanCredit ((capGroup caps 5).getD "")) with
        | none => simp [hf]
        | some v => simp [hf, hdate]
      | false =>
        simp only [convertLineE, h5, Bool.false_eq_true, if_false]
        cases h4 : strTruthyNonBlank (capGroup caps 4) with
        | true =>
          simp only [h4, if_true]
          cases hf : floatOfDigitsDots (cleanDebit ((capGroup caps 4).getD "")) with
          | none => simp [hf]
          | some v => simp [hf, hdate]
        | false => simp [h4]

/-- C3 witness: the conversion succeeds on `29/04/2021` (producing
`2021-04-29`), and the line `"31/02/2021 Feb Fake 9.00"`, whose matched
date token is not a valid calendar date, is dropped. -/
theorem c3_date_conversion_witness :
    toDatetimeFmt ("29" ++ "/" ++ "04" ++ "/" ++ "2021") =
      some (isoFormat (natOfDigits "2021".toList) (natOfDigits "04".toList)
        (natOfDigits "29".toList)) ∧
    parseLine "31/02/2021 Feb Fake 9.00" = none :=
  ⟨c3_date_conversion.1 "29" "04" "2021" rfl (by decide) (by decide) rfl
      (by decide) (by decide) rfl rfl rfl rfl,
   c3_date_conversion.2 "31/02/2021 Feb Fake 9.00"
      [(5, []), (4, "9.00".toList), (2, "Feb Fake".toList), (1, "31/02/2021".toList)]
      rfl rfl⟩

/-- C4 counterexample: two documents are processed (multi-document mode),
yet the aggregated records carry only the three fields
`date`/`description`/`amount` — no source identifier — and the CSV header
line is `date,description,amount`, not
`source_file,date,description,amount` as claimed. -/
theorem c4_no_source_column_counterexample :
    processDocs
      [⟨"absa_march.pdf", "29/04/2021 Fee One  100.00", .netError ""⟩,
       ⟨"absa_april.pdf", "30/04/2021 Fee Two  200.00", .netError ""⟩] =
      [JVal.jobj [("date", JVal.jstr "2021-04-29"),
         ("description", JVal.jstr "Fee One"), ("amount", JVal.jnum (-100))],
       JVal.jobj [("date", JVal.jstr "2021-04-30"),
         ("description", JVal.jstr "Fee Two"), ("amount", JVal.jnum (-200))]] ∧
    csvHeaderLine = "date,description,amount" ∧
    "date,description,amount" ≠ "source_file,date,description,amount" :=
  ⟨rfl, rfl, by decide⟩

/-- C4 (amended): the output schema does not vary with the number of
documents: the exported CSV always begins with the header line
`date,description,amount`, and every grammar-path record carries exactly
the fields `date`, `description` and `amount` — no mode ever adds a
source-document field. -/
theorem c4_schema_mode_independent :
    (∀ rows : List JVal, ∃ rest,
      csvOutput rows = "date,description,amount\n" ++ rest) ∧
    (∀ t : TransactionRecord, recToJson t =
      JVal.jobj [("date", JVal.jstr t.date),
        ("description", JVal.jstr t.description), ("amount", JVal.jnum t.amount)]) :=
  ⟨fun rows => ⟨String.join (rows.map (fun r => csvRow r ++ "\n")), rfl⟩,
   fun _ => rfl⟩

/-- C5 counterexample: a successful service response whose decoded payload
is `[{"date": "x"}]` — an entry missing both required fields `description`
and `amount` — is returned by `process_with_ai` unchanged: no entry is
discarded, refuting the claimed client-side validation. -/
theorem c5_no_validation_counterexample :
    process_with_ai (.response false
      "\x7b\"candidates\": [\x7b\"content\": \x7b\"parts\": [\x7b\"text\": \"[\x7b\\\"date\\\": \\\"x\\\"\x7d]\"\x7d]\x7d\x7d]\x7d") =
      JVal.jarr [JVal.jobj [("date", JVal.jstr "x")]] ∧
    List.lookup "description" [("date", JVal.jstr "x")] = none ∧
    List.lookup "amount" [("date", JVal.jstr "x")] = none :=
  ⟨rfl, rfl, rfl⟩

/-- C5 (amended): on a successful service response (2xx status, decodable
envelope, present candidates/content/parts text, decodable inner payload on
which `len()` works), `process_with_ai` returns the decoded entries
verbatim — it performs no per-entry validation; schema conformance is only
requested from the service via `responseSchema`. -/
theorem c5_success_returns_payload_verbatim :
    ∀ (body txt : String) (env t : JVal) (n : Nat),
      jsonLoads body = Except.ok env →
      navigate env = Except.ok (some txt) →
      jsonLoads txt = Except.ok t →
      pyLen t = some n →
      process_with_ai (.response false body) = t := by
  intro body txt env t n h1 h2 h3 h4
  simp [process_with_ai, h1, h2, h3, h4]

/-- C5 witness: the amended theorem applied to the concrete envelope whose
inner payload is `[{"date": "x"}]`. -/
theorem c5_success_returns_payload_verbatim_witness :
    process_with_ai (.response false
      "\x7b\"candidates\": [\x7b\"content\": \x7b\"parts\": [\x7b\"text\": \"[\x7b\\\"date\\\": \\\"x\\\"\x7d]\"\x7d]\x7d\x7d]\x7d") =
      JVal.jarr [JVal.jobj [("date", JVal.jstr "x")]] :=
  c5_success_returns_payload_verbatim
    "\x7b\"candidates\": [\x7b\"content\": \x7b\"parts\": [\x7b\"text\": \"[\x7b\\\"date\\\": \\\"x\\\"\x7d]\"\x7d]\x7d\x7d]\x7d"
    "[\x7b\"date\": \"x\"\x7d]"
    (JVal.jobj [("candidates", JVal.jarr [JVal.jobj [("content", JVal.jobj
      [("parts", JVal.jarr [JVal.jobj [("text",
        JVal.jstr "[\x7b\"date\": \"x\"\x7d]")]])])]])])
    (JVal.jarr [JVal.jobj [("date", JVal.jstr "x")]]) 1 rfl rfl rfl rfl

/-- C6: every transport/HTTP failure (a raised `RequestException` or a
non-2xx status via `raise_for_status`) and every decode failure (a
non-JSON response body, or an inner payload text that `json.loads`
rejects) makes `process_with_ai` return the empty sequence; the function
is total, so no exception escapes its boundary. -/
theorem c6_failures_yield_empty :
    (∀ msg, process_with_ai (.netError msg) = JVal.jarr []) ∧
    (∀ body, process_with_ai (.response true body) = JVal.jarr []) ∧
    (∀ body, (jsonLoads body).toOption = none →
      process_with_ai (.response false body) = JVal.jarr []) ∧
    (∀ body env txt, jsonLoads body = Except.ok env →
      navigate env = Except.ok (some txt) →
      (jsonLoads txt).toOption = none →
      process_with_ai (.response false body) = JVal.jarr []) := by
  refine ⟨fun _ => rfl, fun _ => rfl, ?_, ?_⟩
  · intro body h
    cases hb : jsonLoads body with
    | ok env => rw [hb] at h; simp [Except.toOption] at h
    | error e => simp [process_with_ai, hb]
  · intro body env txt h1 h2 h3
    cases ht : jsonLoads txt with
    | ok t => rw [ht] at h3; simp [Except.toOption] at h3
    | error e => simp [process_with_ai, h1, h2, ht]

/-- C6 witness: a concrete network error and a concrete undecodable
response body both yield the empty sequence. -/
theorem c6_failures_yield_empty_witness :
    process_with_ai (.netError "connection refused") = JVal.jarr [] ∧
    process_with_ai (.response false "not json") = JVal.jarr [] :=
  ⟨c6_failures_yield_empty.1 "connection refused",
   c6_failures_yield_empty.2.2.1 "not json" rfl⟩

/-- C7: the parser is a total function equal to a `filterMap` of the
per-line handler over the newline-split input — every line contributes at
most one record, in input order, and a per-line conversion exception
(`ValueError`/`IndexError`, modelled by `convertLineE` returning `error`)
only skips that line. -/
theorem c7_parser_total_and_order_preserving :
    (∀ pdf_text, parse_absa_pdf pdf_text = (pySplitNl pdf_text).filterMap parseLine) ∧
    (∀ line caps, hasMarker line = false →
      reSearch transactionPattern (collapseLine line).toList = some caps →
      (∃ e, convertLineE caps = Except.error e) →
      parseLine line = none) := by
  constructor
  · intro t
    unfold parse_absa_pdf
    simpa using foldl_appendRecord_eq_filterMap (pySplitNl t) []
  · intro line caps hm hs he
    obtain ⟨e, he⟩ := he
    have hs2 : reSearch transactionPattern (collapseLine line).data = some caps := hs
    simp [parseLine, hm, hs2, he]

/-- C7 witness: the line `"32/13/2021 Bad Day 5.00"` matches the grammar,
its conversion raises (`ValueError` from the invalid date `32/13/2021`),
and the line is skipped. -/
theorem c7_parser_total_and_order_preserving_witness :
    parseLine "32/13/2021 Bad Day 5.00" = none :=
  c7_parser_total_and_order_preserving.2 "32/13/2021 Bad Day 5.00"
    [(5, []), (4, "5.00".toList), (2, "Bad Day".toList), (1, "32/13/2021".toList)]
    rfl rfl ⟨PyErr.valueError, rfl⟩

/-- C8: routing is the pure function `route` of the document identifier:
a file is processed by the grammar parser iff its lowercased name contains
`"absa"`, and every other file is processed by the model-backed
extractor. -/
theorem c8_routing_pure_function_of_name :
    ∀ f : UploadedFile,
      (route f.name = Route.grammar ↔
        listContainsSub ("absa".toList) (pyLower f.name).toList = true) ∧
      (route f.name = Route.modelBacked ↔
        listContainsSub ("absa".toList) (pyLower f.name).toList = false) ∧
      (route f.name = Route.grammar →
        processFile f = JVal.jarr ((parse_absa_pdf f.text).map recToJson)) ∧
      (route f.name = Route.modelBacked →
        processFile f = process_with_ai f.aiResult) := by
  intro f
  cases h : listContainsSub ("absa".toList) (pyLower f.name).toList with
  | true =>
    have h2 : listContainsSub ['a', 'b', 's', 'a'] (pyLower f.name).data = true := h
    simp [route, processFile, h2]
  | false =>
    have h2 : listContainsSub ['a', 'b', 's', 'a'] (pyLower f.name).data = false := h
    simp [route, processFile, h2]

/-- C8 witness: a file whose name contains `"Absa"` routes to the grammar
parser, a file without the token routes to the model-backed extractor. -/
theorem c8_routing_pure_function_of_name_witness :
    route "Absa_2021.pdf" = Route.grammar ∧
    processFile ⟨"Absa_2021.pdf", "", AiOutcome.netError ""⟩ =
      JVal.jarr ((parse_absa_pdf "").map recToJson) ∧
    route "fnb.pdf" = Route.modelBacked ∧
    processFile ⟨"fnb.pdf", "", AiOutcome.netError "x"⟩ =
      process_with_ai (AiOutcome.netError "x") := by
  have h1 := (c8_routing_pure_function_of_name
    ⟨"Absa_2021.pdf", "", AiOutcome.netError ""⟩).1.mpr rfl
  have h2 := (c8_routing_pure_function_of_name
    ⟨"Absa_2021.pdf", "", AiOutcome.netError ""⟩).2.2.1 h1
  have h3 := (c8_routing_pure_function_of_name
    ⟨"fnb.pdf", "", AiOutcome.netError "x"⟩).2.1.mpr rfl
  have h4 := (c8_routing_pure_function_of_name
    ⟨"fnb.pdf", "", AiOutcome.netError "x"⟩).2.2.2 h3
  exact ⟨h1, h2, h3, h4⟩

/-- C9: aggregation is order-preserving concatenation of the per-document
result lists — `aggregate [docA, docB] = docA ++ docB` for any lists, and
in general the flattening of the list of lists; the main loop's
accumulator follows the same law, with no sorting, deduplication or
modification of records. -/
theorem c9_aggregate_is_concatenation :
    (∀ results : List (List TransactionRecord), aggregate results = results.flatten) ∧
    (∀ docA docB : List TransactionRecord, aggregate [docA, docB] = docA ++ docB) ∧
    (∀ files : List UploadedFile,
      processDocs files =
        aggregate (files.map (fun f => (pyIterElems (processFile f)).getD []))) := by
  refine ⟨?_, ?_, ?_⟩
  · intro results
    unfold aggregate
    simpa using foldl_append_eq_join results []
  · intro docA docB
    unfold aggregate
    rw [foldl_append_eq_join [docA, docB] []]
    simp
  · intro files
    unfold processDocs aggregate
    rw [processDocs_foldl files [], foldl_append_eq_join]

/-- C10: any line containing one of the fixed exclusion markers
(`"statement no"`, `"transaction description"`, `"page"`) as a
case-insensitive substring produces no record — the `continue` at line 52
fires before the grammar is even tried. -/
theorem c10_marker_lines_produce_no_record :
    ∀ line : String,
      (listContainsSub ("statement no".toList) (pyLower line).toList = true ∨
       listContainsSub ("transaction description".toList) (pyLower line).toList = true ∨
       listContainsSub ("page".toList) (pyLower line).toList = true) →
      parseLine line = none := by
  intro line h
  have hm : hasMarker line = true := by
    unfold hasMarker
    rcases h with h | h | h <;> simp only [h, Bool.true_or, Bool.or_true]
  simp [parseLine, hm]

/-- C10 witness: `"29/04/2021 Page Fee 5.00"` — a line that would otherwise
match the transaction grammar — contains the marker `"page"`
case-insensitively and produces no record. -/
theorem c10_marker_lines_produce_no_record_witness :
    parseLine "29/04/2021 Page Fee 5.00" = none :=
  c10_marker_lines_produce_no_record "29/04/2021 Page Fee 5.00"
    (Or.inr (Or.inr rfl))

end BankPdf
